import Mathlib

/-!
Shallow embedding of the transaction-orchestration and governance service of the
ComputeHardwareRWA marketplace backend (`services/compute.ts`), together with
theorems settling the frozen claims about it.

The service reads on-chain state through a JSON-RPC provider and assembles
unsigned transactions.  The embedding models the point-in-time chain state the
service reads as a record of functions (`Chain`), models the thrown
`http-errors` values (`createHttpError.BadRequest` / `.InternalServerError`) as
an explicit error type (`HErr`), and models the provider operations a request
performs as an explicit trace (`LOp`) where a claim depends on the order of
those operations.  Catch blocks of the source are modelled as explicit error
transformers applied with `Except.mapError`, mirroring the `try { ... } catch`
structure of each service function.
-/

namespace ComputeRWA

/-- Characters kept by the JS regex `[^A-Z0-9]/gi` replacement in `createListing`:
ASCII letters (either case) and digits. -/
def isAsciiAlnum (c : Char) : Bool :=
  (65 ≤ c.toNat && c.toNat ≤ 90) || (97 ≤ c.toNat && c.toNat ≤ 122) ||
    (48 ≤ c.toNat && c.toNat ≤ 57)

/-- JS `String.prototype.toUpperCase` restricted to a single ASCII character:
lower-case letters are shifted to upper case, everything else is unchanged. -/
def jsUpperChar (c : Char) : Char :=
  if 97 ≤ c.toNat ∧ c.toNat ≤ 122 then Char.ofNat (c.toNat - 32) else c

/-- JS `String.prototype.toLowerCase` restricted to a single ASCII character. -/
def jsLowerChar (c : Char) : Char :=
  if 65 ≤ c.toNat ∧ c.toNat ≤ 90 then Char.ofNat (c.toNat + 32) else c

/-- JS `toUpperCase` over a string of ASCII characters. -/
def jsToUpper (s : String) : String :=
  String.mk (s.toList.map jsUpperChar)

/-- JS `toLowerCase` over a string of ASCII characters (used for the
case-insensitive address comparisons in the source). -/
def jsToLower (s : String) : String :=
  String.mk (s.toList.map jsLowerChar)

/-- Boolean test that `p` is an initial segment of `s` (helper for the JS
`String.prototype.includes` model). -/
def leadsList : List Char → List Char → Bool
  | [], _ => true
  | _ :: _, [] => false
  | a :: as, b :: bs => a = b && leadsList as bs

/-- Boolean test that `pat` occurs contiguously inside `s`. -/
def containsSub : List Char → List Char → Bool
  | [], pat => leadsList pat []
  | c :: t, pat => leadsList pat (c :: t) || containsSub t pat

/-- JS `String.prototype.includes`, used by the catch blocks of the source to
classify error messages by substring matching. -/
def jsIncludes (s pat : String) : Bool :=
  containsSub s.toList pat.toList

/-- Left-pad a digit list with zeros up to length `n`. -/
def padLeftZeros (s : List Char) (n : Nat) : List Char :=
  List.replicate (n - s.length) '0' ++ s

/-- `ethers.utils.formatEther`: render a wei amount as a decimal ether string
(integer part, a dot, and the fractional part with trailing zeros trimmed but
at least one digit kept). -/
def formatEther (wei : Nat) : String :=
  let whole := wei / 10 ^ 18
  let fracDigits := padLeftZeros (Nat.repr (wei % 10 ^ 18)).toList 18
  let trimmed := (fracDigits.reverse.dropWhile (fun c => c = '0')).reverse
  Nat.repr whole ++ "." ++ (if trimmed.isEmpty then "0" else String.mk trimmed)

/-- `ethers.utils.parseEther` / `parseUnits(x, "ether")` on an (exact) decimal
value: multiply by `10 ^ 18`. -/
def parseEther (x : ℚ) : ℚ :=
  x * 10 ^ 18

/-- Display of a JS number inside a template literal.  The embedding prints the
exact rational value; no claim depends on the rendered digits. -/
def jsNumberToString (q : ℚ) : String :=
  toString q

/-- `ethers.constants.AddressZero`. -/
def zeroAddress : String :=
  "0x0000000000000000000000000000000000000000"

/-- An argument of an ABI-encoded call (`encodeFunctionData`): the embedding
keeps the method name and the argument list symbolic instead of byte-encoding
them. -/
inductive AbiValue where
  | s (v : String)
  | n (v : Nat)
  | q (v : ℚ)
  | b (v : Bool)
deriving DecidableEq

/-- Result of `Interface.encodeFunctionData(method, args)`. -/
structure CallData where
  method : String
  args : List AbiValue
deriving DecidableEq

/-- The unsigned transaction descriptor each builder operation returns for the
client to sign (`value` is present only on payable calls, as in the source). -/
structure UnsignedTx where
  fromAddr : String
  toAddr : String
  callData : CallData
  value : Option Nat := none
  gasLimit : Nat
  gasPrice : Nat
  nonce : Nat
  chainId : Nat
deriving DecidableEq

/-- The two `http-errors` constructors the service throws:
`createHttpError.BadRequest` (4xx client error) and
`createHttpError.InternalServerError` (5xx infrastructure error). -/
inductive HErr where
  | badRequest (msg : String)
  | internalServerError (msg : String)
deriving DecidableEq

/-- Message carried by a thrown error (`error.message`). -/
def HErr.message : HErr → String
  | .badRequest m => m
  | .internalServerError m => m

/-- Provider / contract operations a request performs, recorded in order where a
claim depends on which remote calls were attempted. -/
inductive LOp where
  | contractRead (contract method : String)
  | staticCall (contract method : String)
  | estimateGas (fromAddr toAddr : String)
  | getGasPrice
  | getTransactionCount (addr : String)
  | getNetwork
deriving DecidableEq

/-- Whether a traced operation is a gas estimation. -/
def LOp.isEstimateGas : LOp → Bool
  | .estimateGas _ _ => true
  | _ => false

/-- Point-in-time chain state and provider answers a request observes: one
field per contract view / provider call the transaction builders read.  The
embedding treats reads as total (the environment supplies the value a
successful read returns); the one remote call whose failure the source
inspects, the `callStatic.vote` probe, is modelled by `staticVoteOf` returning
the revert reason of the simulated call (`none` means the simulation
succeeded). -/
structure Chain where
  marketplace : String
  marketplaceOwner : String
  tokenContractOf : String → String
  balanceOf : String → String → Nat
  allowanceOf : String → String → String → Nat
  totalSupplyOf : String → Nat
  tokenPriceOf : String → Nat
  rentalPriceOf : String → Nat
  availableTokensOf : String → Nat
  currentTenantOf : String → String
  proposalActiveOf : String → Bool
  proposalPriceOf : String → Nat
  voteThresholdOf : String → Nat
  percentageDecimalsOf : String → Nat
  staticVoteOf : String → String → Bool → Option String
  pinJsonUrlOf : String → String
  gasPriceNow : Nat
  txCountOf : String → Nat
  chainId : Nat
  estimateGasOf : String → String → CallData → Option Nat → Nat

/-- Request body of `createListing`.  `totalTokens = 0` models a missing or
zero JS `totalTokens` (both are falsy, which is what the source tests); the
price fields carry the numeric value of the caller's decimal input. -/
structure CreateListingReq where
  hardwareName : String
  totalTokens : Nat
  tokenPrice : ℚ
  rentalPrice : ℚ
  imageUrl : String
  cpu : String
  memory : String
  location : String
  userAddress : String
  instanceId : String

/-- Payload `{ tx, message }` returned by `createListing`. -/
structure TxRes where
  tx : UnsignedTx
  message : String
deriving DecidableEq

/-- Symbol derivation inlined in `createListing`:
`name.replace(/[^A-Z0-9]/gi, "").substring(0, 5).toUpperCase() + suffix`. -/
def deriveSymbol (hardwareName suffix : String) : String :=
  String.mk (((hardwareName.toList.filter isAsciiAlnum).take 5).map jsUpperChar) ++ suffix

/-- `createListing`: validate, publish metadata (the content store is the
environment's `pinJsonUrlOf`), derive names and symbols, encode
`createListing(...)` against the Marketplace and assemble the unsigned
transaction. -/
def createListing (env : Chain) (req : CreateListingReq) : Except HErr TxRes :=
  if req.hardwareName = "" ∨ req.userAddress = "" then
    .error (.badRequest "Hardware name and user address are required")
  else
    let contractAddress := env.marketplace
    let metadataUrl := env.pinJsonUrlOf req.hardwareName
    let nftName := req.hardwareName ++ " NFT"
    let nftSymbol := deriveSymbol req.hardwareName "NFT"
    let tokenName := req.hardwareName ++ " Token"
    let tokenSymbol := deriveSymbol req.hardwareName "TKN"
    let data : CallData :=
      ⟨"createListing",
        [.s nftName, .s nftSymbol, .s tokenName, .s tokenSymbol, .s metadataUrl,
         .n (if req.totalTokens = 0 then 1000 else req.totalTokens),
         .q (parseEther req.tokenPrice), .q (parseEther req.rentalPrice)]⟩
    let gasEstimate := env.estimateGasOf req.userAddress contractAddress data none
    let txObject : UnsignedTx :=
      { fromAddr := req.userAddress, toAddr := contractAddress, callData := data,
        value := none, gasLimit := gasEstimate, gasPrice := env.gasPriceNow,
        nonce := env.txCountOf req.userAddress, chainId := env.chainId }
    .ok { tx := txObject,
          message := "Transaction created successfully. Please sign and submit." }

/-- Request body of `buyTokens`. -/
structure BuyTokensReq where
  numberOfTokens : Nat
  userAddress : String
  daoAddress : String

/-- Payload returned by `buyTokens`. -/
structure BuyRes where
  tx : UnsignedTx
  totalPayment : String
  message : String
deriving DecidableEq

/-- Catch block of `buyTokens`: re-throw the self-thrown supply error, map the
recognized revert reason to a 400, wrap everything else as a 500. -/
def buyCatch (e : HErr) : HErr :=
  if jsIncludes e.message "Not enough tokens available" then e
  else if jsIncludes e.message "Incorrect payment amount" then
    .badRequest "Incorrect payment amount calculated. Please try again."
  else .internalServerError ("Failed to prepare buy transaction: " ++ e.message)

/-- Try block of `buyTokens`: read price and availability, check supply,
encode `buyTokens(amount)` with `value = tokenPrice * amount`. -/
def buyTokensBody (env : Chain) (req : BuyTokensReq) : Except HErr BuyRes :=
  let tokenPrice := env.tokenPriceOf req.daoAddress
  let totalPayment := tokenPrice * req.numberOfTokens
  let availableTokens := env.availableTokensOf req.daoAddress
  if availableTokens < req.numberOfTokens then
    .error (.badRequest ("Not enough tokens available for sale. Requested: " ++
      Nat.repr req.numberOfTokens ++ ", Available: " ++ Nat.repr availableTokens))
  else
    let buyData : CallData := ⟨"buyTokens", [.n req.numberOfTokens]⟩
    let gasEstimate := env.estimateGasOf req.userAddress req.daoAddress buyData (some totalPayment)
    let txObject : UnsignedTx :=
      { fromAddr := req.userAddress, toAddr := req.daoAddress, callData := buyData,
        value := some totalPayment, gasLimit := gasEstimate, gasPrice := env.gasPriceNow,
        nonce := env.txCountOf req.userAddress, chainId := env.chainId }
    .ok { tx := txObject, totalPayment := formatEther totalPayment,
          message := "Transaction created to buy " ++ Nat.repr req.numberOfTokens ++
            " tokens for " ++ formatEther totalPayment ++
            " ETH. Please sign to complete purchase." }

/-- `buyTokens`: field validation happens before the try block, then the body
runs under the catch transformer. -/
def buyTokens (env : Chain) (req : BuyTokensReq) : Except HErr BuyRes :=
  if req.numberOfTokens = 0 ∨ req.userAddress = "" ∨ req.daoAddress = "" then
    .error (.badRequest "Number of tokens, user address, and DAO address are required")
  else if req.numberOfTokens ≤ 0 then
    .error (.badRequest "Amount must be greater than 0")
  else (buyTokensBody env req).mapError buyCatch

/-- Hardware metadata JSON fetched from the NFT token URI. -/
structure HardwareMetadata where
  name : String
  image : String
  cpu : String
  memory : String
  location : String
deriving DecidableEq, Inhabited

/-- Denormalized listing returned by the aggregator: the metadata fields spread
together with the DAO address and the formatted prices. -/
structure ListingEntry where
  name : String
  image : String
  cpu : String
  memory : String
  location : String
  daoAddress : String
  tokenPrice : String
  rentalPrice : String
deriving DecidableEq, Inhabited

/-- Environment of the listing aggregator.  Each per-DAO read may fail
(`none`), covering network errors, reverts and malformed metadata; the
registry enumeration itself carries its failure message when it fails. -/
structure ListingEnv where
  listings : Except String (List String)
  nftContractOf : String → Option String
  tokenPriceOf : String → Option Nat
  rentalPriceOf : String → Option Nat
  tokenUriOf : String → Option String
  fetchJson : String → Option HardwareMetadata

/-- Per-DAO resolution inside `getListing`: read the NFT contract, the prices,
the token URI and the metadata JSON; any failure yields `none` (the source
catches per-entry errors and returns `null`). -/
def fetchListing (env : ListingEnv) (daoAddress : String) : Option ListingEntry := do
  let nftContractAddress ← env.nftContractOf daoAddress
  let tokenPrice ← env.tokenPriceOf daoAddress
  let rentalPrice ← env.rentalPriceOf daoAddress
  let metadataUrl ← env.tokenUriOf nftContractAddress
  let metadata ← env.fetchJson metadataUrl
  pure { name := metadata.name, image := metadata.image, cpu := metadata.cpu,
         memory := metadata.memory, location := metadata.location,
         daoAddress := daoAddress, tokenPrice := formatEther tokenPrice,
         rentalPrice := formatEther rentalPrice }

/-- Comparator of the final `listings.sort`: `a.daoAddress.localeCompare(b.daoAddress)`,
modelled as ordinal string order. -/
def listingLe (a b : ListingEntry) : Bool :=
  a.daoAddress ≤ b.daoAddress

/-- `getListing`: enumerate the registry, resolve every DAO, drop failed
entries, sort the survivors by DAO address.  Only an enumeration failure is a
hard error. -/
def getListing (env : ListingEnv) : Except HErr (List ListingEntry) :=
  match env.listings with
  | .error m => .error (.internalServerError ("Failed to get listings: " ++ m))
  | .ok daoAddresses =>
    .ok ((daoAddresses.filterMap (fetchListing env)).mergeSort listingLe)

/-- Request body of `proposeNewRentalPrice`; `none` models the missing / empty
price string. -/
structure ProposeReq where
  daoAddress : String
  userAddress : String
  newRentalPrice : Option ℚ

/-- Payload returned by `proposeNewRentalPrice`. -/
structure ProposeRes where
  tx : UnsignedTx
  currentRentalPrice : String
  newRentalPriceValue : ℚ
  voteThreshold : String
  message : String
deriving DecidableEq

/-- Catch block of `proposeNewRentalPrice`: a locally thrown `http-errors`
value has no `code === "CALL_EXCEPTION"` property, so every error the try block
throws is re-wrapped as an `InternalServerError`. -/
def proposeCatch (e : HErr) : HErr :=
  .internalServerError ("Failed to create proposal transaction: " ++ e.message)

/-- Try block of `proposeNewRentalPrice`, with the trace of provider calls it
performs in order. -/
def proposeBody (env : Chain) (daoAddress userAddress : String) (newRentalPrice : ℚ) :
    Except HErr ProposeRes × List LOp :=
  let tokenContractAddress := env.tokenContractOf daoAddress
  let ops1 : List LOp := [.contractRead daoAddress "TOKEN_CONTRACT"]
  let tokenBalance := env.balanceOf tokenContractAddress userAddress
  let ops2 := ops1 ++ [.contractRead tokenContractAddress "balanceOf"]
  if tokenBalance = 0 then
    (.error (.badRequest "You must be a token holder to propose a new rental price"), ops2)
  else
    let ops3 := ops2 ++ [.contractRead daoAddress "currentProposal"]
    if env.proposalActiveOf daoAddress then
      (.error (.badRequest "There\x27s already an active proposal"), ops3)
    else
      let currentRentalPrice := env.rentalPriceOf daoAddress
      let ops4 := ops3 ++ [.contractRead daoAddress "rentalPrice"]
      let proposeData : CallData := ⟨"proposeNewRent", [.q (parseEther newRentalPrice)]⟩
      let gasEstimate := env.estimateGasOf userAddress daoAddress proposeData none
      let ops5 := ops4 ++ [.estimateGas userAddress daoAddress, .getGasPrice,
        .getTransactionCount userAddress, .getNetwork]
      let txObject : UnsignedTx :=
        { fromAddr := userAddress, toAddr := daoAddress, callData := proposeData,
          value := none, gasLimit := gasEstimate, gasPrice := env.gasPriceNow,
          nonce := env.txCountOf userAddress, chainId := env.chainId }
      let voteThreshold := env.voteThresholdOf daoAddress
      let percentageDecimals := env.percentageDecimalsOf daoAddress
      let ops6 := ops5 ++ [.contractRead daoAddress "VOTE_THRESHOLD",
        .contractRead daoAddress "PERCENTAGE_DECIMALS"]
      let thresholdPercentage : ℚ := ((voteThreshold : ℚ) * 100) / (percentageDecimals : ℚ)
      (.ok { tx := txObject,
             currentRentalPrice := formatEther currentRentalPrice,
             newRentalPriceValue := newRentalPrice,
             voteThreshold := jsNumberToString thresholdPercentage ++ "%",
             message := "Transaction created to propose new rental price of " ++
               jsNumberToString newRentalPrice ++ " ETH/day (current: " ++
               formatEther currentRentalPrice ++ " ETH/day). Requires " ++
               jsNumberToString thresholdPercentage ++ "% majority to pass." }, ops6)

/-- `proposeNewRentalPrice`: local validation before the try block, then the
body under the catch transformer. -/
def proposeNewRentalPrice (env : Chain) (req : ProposeReq) :
    Except HErr ProposeRes × List LOp :=
  if req.daoAddress = "" ∨ req.userAddress = "" ∨ req.newRentalPrice = none then
    (.error (.badRequest "DAO address, user address, and new rental price are required"), [])
  else if req.newRentalPrice.getD 0 ≤ 0 then
    (.error (.badRequest "Rental price must be greater than 0"), [])
  else
    let r := proposeBody env req.daoAddress req.userAddress (req.newRentalPrice.getD 0)
    (r.1.mapError proposeCatch, r.2)

/-- Request body of `voteOnProposal`; `none` models `inFavor === undefined`. -/
structure VoteReq where
  daoAddress : String
  userAddress : String
  inFavor : Option Bool

/-- Payload returned by `voteOnProposal`. -/
structure VoteRes where
  tx : UnsignedTx
  proposedPrice : String
  votingWeight : String
  vote : String
  message : String
deriving DecidableEq

/-- Catch block of `voteOnProposal`: locally thrown errors have no
`CALL_EXCEPTION` code, so they are re-wrapped as `InternalServerError`. -/
def voteCatch (e : HErr) : HErr :=
  .internalServerError ("Failed to create vote transaction: " ++ e.message)

/-- Assembly phase of `voteOnProposal`, reached when the duplicate-vote probe
did not signal "Already voted". -/
def voteAssemble (env : Chain) (daoAddress userAddress : String) (inFavor : Bool)
    (tokenBalance : Nat) (ops : List LOp) : Except HErr VoteRes × List LOp :=
  let tokenContractAddress := env.tokenContractOf daoAddress
  let totalSupply := env.totalSupplyOf tokenContractAddress
  let percentageDecimals := env.percentageDecimalsOf daoAddress
  let ops5 := ops ++ [.contractRead tokenContractAddress "totalSupply",
    .contractRead daoAddress "PERCENTAGE_DECIMALS"]
  let voterWeight := tokenBalance * percentageDecimals / totalSupply
  let voterWeightPercentage : ℚ := ((voterWeight : ℚ) * 100) / (percentageDecimals : ℚ)
  let proposedPrice := env.proposalPriceOf daoAddress
  let voteData : CallData := ⟨"vote", [.b inFavor]⟩
  let gasEstimate := env.estimateGasOf userAddress daoAddress voteData none
  let ops6 := ops5 ++ [.estimateGas userAddress daoAddress, .getGasPrice,
    .getTransactionCount userAddress, .getNetwork]
  let txObject : UnsignedTx :=
    { fromAddr := userAddress, toAddr := daoAddress, callData := voteData,
      value := none, gasLimit := gasEstimate, gasPrice := env.gasPriceNow,
      nonce := env.txCountOf userAddress, chainId := env.chainId }
  (.ok { tx := txObject,
         proposedPrice := formatEther proposedPrice,
         votingWeight := jsNumberToString voterWeightPercentage ++ "%",
         vote := if inFavor then "In favor" else "Against",
         message := "Transaction created to vote " ++
           (if inFavor then "in favor of" else "against") ++
           " the proposal to change rental price to " ++ formatEther proposedPrice ++
           " ETH/day. Your voting weight is " ++
           jsNumberToString voterWeightPercentage ++ "%." }, ops6)

/-- Try block of `voteOnProposal`: holder check, active-proposal check, then
the best-effort `callStatic.vote` probe — a revert reason containing
"Already voted" throws, any other simulated-call failure is ignored and the
function continues to assembly. -/
def voteBody (env : Chain) (daoAddress userAddress : String) (inFavor : Bool) :
    Except HErr VoteRes × List LOp :=
  let tokenContractAddress := env.tokenContractOf daoAddress
  let ops1 : List LOp := [.contractRead daoAddress "TOKEN_CONTRACT"]
  let tokenBalance := env.balanceOf tokenContractAddress userAddress
  let ops2 := ops1 ++ [.contractRead tokenContractAddress "balanceOf"]
  if tokenBalance = 0 then
    (.error (.badRequest "You must be a token holder to vote"), ops2)
  else
    let ops3 := ops2 ++ [.contractRead daoAddress "currentProposal"]
    if env.proposalActiveOf daoAddress = false then
      (.error (.badRequest "There\x27s no active proposal to vote on"), ops3)
    else
      let ops4 := ops3 ++ [.staticCall daoAddress "vote"]
      match env.staticVoteOf daoAddress userAddress inFavor with
      | some revertReason =>
        if jsIncludes revertReason "Already voted" then
          (.error (.badRequest "You have already voted on this proposal"), ops4)
        else voteAssemble env daoAddress userAddress inFavor tokenBalance ops4
      | none => voteAssemble env daoAddress userAddress inFavor tokenBalance ops4

/-- `voteOnProposal`: local validation before the try block, then the body
under the catch transformer. -/
def voteOnProposal (env : Chain) (req : VoteReq) : Except HErr VoteRes × List LOp :=
  if req.daoAddress = "" ∨ req.userAddress = "" ∨ req.inFavor = none then
    (.error (.badRequest "DAO address, user address, and vote choice are required"), [])
  else
    let r := voteBody env req.daoAddress req.userAddress (req.inFavor.getD true)
    (r.1.mapError voteCatch, r.2)

/-- Helper `getProposalStatus(votesFor, votesAgainst, threshold, decimals)` of
the source, the proposal classifier. -/
def getProposalStatus (votesFor votesAgainst threshold decimals : ℚ) : String :=
  let forPercentage := votesFor * 100 / decimals
  let againstPercentage := votesAgainst * 100 / decimals
  let thresholdPercentage := threshold * 100 / decimals
  if forPercentage ≥ thresholdPercentage then "Passing"
  else if againstPercentage > 100 - thresholdPercentage then "Failing"
  else "In Progress"

/-- Request body of `becomeTenant` (and of the unlist operations, which take
the same two fields). -/
structure TenantReq where
  userAddress : String
  daoAddress : String

/-- Payload returned by `becomeTenant`. -/
structure TenantRes where
  tx : UnsignedTx
  rentalPrice : String
  message : String
deriving DecidableEq

/-- Catch block of `becomeTenant`: it matches the on-chain revert strings
"Property already rented" and "Incorrect rent amount"; note the error the try
block itself throws has a different message, so it falls through to the 500
wrapper. -/
def becomeTenantCatch (e : HErr) : HErr :=
  if jsIncludes e.message "Property already rented" then
    .badRequest "This property is already rented by another tenant."
  else if jsIncludes e.message "Incorrect rent amount" then
    .badRequest "The rental payment amount is incorrect. Please try again."
  else .internalServerError ("Failed to prepare tenant transaction: " ++ e.message)

/-- Try block of `becomeTenant` — in the source even the field validation sits
inside the try, so its error also passes through the catch transformer. -/
def becomeTenantBody (env : Chain) (req : TenantReq) : Except HErr TenantRes :=
  if req.userAddress = "" ∨ req.daoAddress = "" then
    .error (.badRequest "User address and DAO address are required")
  else
    let currentTenant := env.currentTenantOf req.daoAddress
    if currentTenant ≠ zeroAddress then
      .error (.badRequest "This property already has a tenant. It\x27s not available for rent.")
    else
      let rentalPrice := env.rentalPriceOf req.daoAddress
      let becomeTenantData : CallData := ⟨"becomeTenant", []⟩
      let gasEstimate :=
        env.estimateGasOf req.userAddress req.daoAddress becomeTenantData (some rentalPrice)
      let txObject : UnsignedTx :=
        { fromAddr := req.userAddress, toAddr := req.daoAddress,
          callData := becomeTenantData, value := some rentalPrice,
          gasLimit := gasEstimate, gasPrice := env.gasPriceNow,
          nonce := env.txCountOf req.userAddress, chainId := env.chainId }
      .ok { tx := txObject, rentalPrice := formatEther rentalPrice,
            message := "Transaction created to become a tenant for " ++
              formatEther rentalPrice ++ " ETH. Please sign to complete the rental." }

/-- `becomeTenant`: the whole body (validation included) under the catch
transformer. -/
def becomeTenant (env : Chain) (req : TenantReq) : Except HErr TenantRes :=
  (becomeTenantBody env req).mapError becomeTenantCatch

/-- Payload returned by `getUnlistApprovalTx`: either the "no approval needed"
short-circuit (no transaction) or the `approve` transaction. -/
structure ApprovalRes where
  needsApproval : Bool
  tx : Option UnsignedTx
  totalSupply : Option String
  message : String
deriving DecidableEq

/-- Catch block of `getUnlistApprovalTx`: every thrown error is wrapped as an
`InternalServerError`. -/
def unlistApprovalCatch (e : HErr) : HErr :=
  .internalServerError ("Failed to prepare approval transaction: " ++ e.message)

/-- Try block of `getUnlistApprovalTx`: full-supply ownership check, allowance
short-circuit, else encode `approve(daoAddress, totalSupply)` on the token. -/
def getUnlistApprovalTxBody (env : Chain) (req : TenantReq) : Except HErr ApprovalRes :=
  let tokenContractAddress := env.tokenContractOf req.daoAddress
  let totalSupply := env.totalSupplyOf tokenContractAddress
  let userBalance := env.balanceOf tokenContractAddress req.userAddress
  if userBalance ≠ totalSupply then
    .error (.badRequest ("You must own all tokens to unlock the NFT. You own " ++
      Nat.repr userBalance ++ " of " ++ Nat.repr totalSupply ++ " tokens."))
  else
    let approvedAmount := env.allowanceOf tokenContractAddress req.userAddress req.daoAddress
    if approvedAmount ≥ totalSupply then
      .ok { needsApproval := false, tx := none, totalSupply := none,
            message := "Tokens are already approved. Proceed to unlocking the NFT." }
    else
      let approveData : CallData := ⟨"approve", [.s req.daoAddress, .n totalSupply]⟩
      let approveGasEstimate :=
        env.estimateGasOf req.userAddress tokenContractAddress approveData none
      let approveTx : UnsignedTx :=
        { fromAddr := req.userAddress, toAddr := tokenContractAddress,
          callData := approveData, value := none, gasLimit := approveGasEstimate,
          gasPrice := env.gasPriceNow, nonce := env.txCountOf req.userAddress,
          chainId := env.chainId }
      .ok { needsApproval := true, tx := some approveTx,
            totalSupply := some (Nat.repr totalSupply),
            message := "Approve token transfer to DAO contract before unlocking NFT" }

/-- `getUnlistApprovalTx`: field validation before the try block, then the body
under the catch transformer. -/
def getUnlistApprovalTx (env : Chain) (req : TenantReq) : Except HErr ApprovalRes :=
  if req.userAddress = "" ∨ req.daoAddress = "" then
    .error (.badRequest "User address and DAO address are required")
  else (getUnlistApprovalTxBody env req).mapError unlistApprovalCatch

/-- One element of the two-transaction unlist batch. -/
structure DescribedTx where
  tx : UnsignedTx
  description : String
deriving DecidableEq

/-- Payload returned by `completeUnlist`. -/
structure UnlistRes where
  transactions : List DescribedTx
  message : String
deriving DecidableEq

/-- Catch block of `completeUnlist`: every thrown error is wrapped as an
`InternalServerError`. -/
def completeUnlistCatch (e : HErr) : HErr :=
  .internalServerError ("Failed to prepare unlisting transactions: " ++ e.message)

/-- Try block of `completeUnlist`: marketplace-owner check (case-insensitive
address comparison), allowance check, then the two-transaction batch with one
nonce read (`n`, `n + 1`) and one gas price / chain id shared by both. -/
def completeUnlistBody (env : Chain) (req : TenantReq) : Except HErr UnlistRes :=
  let marketplaceAddress := env.marketplace
  if jsToLower env.marketplaceOwner ≠ jsToLower req.userAddress then
    .error (.badRequest "Only the marketplace owner can remove the listing")
  else
    let tokenContractAddress := env.tokenContractOf req.daoAddress
    let totalSupply := env.totalSupplyOf tokenContractAddress
    let approvedAmount := env.allowanceOf tokenContractAddress req.userAddress req.daoAddress
    if approvedAmount < totalSupply then
      .error (.badRequest ("You must approve the DAO to transfer all tokens first. Currently approved: " ++
        Nat.repr approvedAmount ++ " of " ++ Nat.repr totalSupply ++ " needed."))
    else
      let nonce := env.txCountOf req.userAddress
      let gasPrice := env.gasPriceNow
      let chainId := env.chainId
      let unlockData : CallData := ⟨"unlockNFT", []⟩
      let unlockGasEstimate := env.estimateGasOf req.userAddress req.daoAddress unlockData none
      let unlockTx : UnsignedTx :=
        { fromAddr := req.userAddress, toAddr := req.daoAddress, callData := unlockData,
          value := none, gasLimit := unlockGasEstimate, gasPrice := gasPrice,
          nonce := nonce, chainId := chainId }
      let removeData : CallData := ⟨"removeListing", [.s req.daoAddress]⟩
      let removeGasEstimate :=
        env.estimateGasOf req.userAddress marketplaceAddress removeData none
      let removeTx : UnsignedTx :=
        { fromAddr := req.userAddress, toAddr := marketplaceAddress, callData := removeData,
          value := none, gasLimit := removeGasEstimate, gasPrice := gasPrice,
          nonce := nonce + 1, chainId := chainId }
      .ok { transactions :=
              [{ tx := unlockTx, description := "Step 1: Unlock NFT by burning all tokens" },
               { tx := removeTx, description := "Step 2: Remove listing from marketplace" }],
            message := "Execute these transactions in sequence to unlock the NFT and remove the listing" }

/-- `completeUnlist`: field validation before the try block, then the body
under the catch transformer. -/
def completeUnlist (env : Chain) (req : TenantReq) : Except HErr UnlistRes :=
  if req.userAddress = "" ∨ req.daoAddress = "" then
    .error (.badRequest "User address and DAO address are required")
  else (completeUnlistBody env req).mapError completeUnlistCatch

/-- Modelled from the spec: symbol derivation in the spec's own word order —
"take hardware name, strip non-alphanumeric characters, case-fold to upper,
truncate to 5 characters, append fixed suffix".  The source truncates before
case-folding; this definition is the refinement target the code is compared
against. -/
def specSymbolDerivation (hardwareName suffix : String) : String :=
  String.mk (((hardwareName.toList.filter isAsciiAlnum).map jsUpperChar).take 5) ++ suffix

/-! Helper lemmas. -/

theorem char_toNat_ofNat {n : Nat} (h : n.isValidChar) : (Char.ofNat n).toNat = n := by
  rw [Char.ofNat, dif_pos h]
  rfl

theorem jsUpperChar_toNat (c : Char) :
    (jsUpperChar c).toNat =
      if 97 ≤ c.toNat ∧ c.toNat ≤ 122 then c.toNat - 32 else c.toNat := by
  unfold jsUpperChar
  split
  · next h => exact char_toNat_ofNat (Or.inl (by omega))
  · rfl

theorem jsUpperChar_fix {d : Char} (h : ¬(97 ≤ d.toNat ∧ d.toNat ≤ 122)) :
    jsUpperChar d = d := by
  unfold jsUpperChar
  rw [if_neg h]

theorem isAsciiAlnum_jsUpperChar {c : Char} (h : isAsciiAlnum c = true) :
    isAsciiAlnum (jsUpperChar c) = true := by
  have ht := jsUpperChar_toNat c
  unfold isAsciiAlnum at h ⊢
  simp only [Bool.or_eq_true, Bool.and_eq_true, decide_eq_true_eq] at h ⊢
  rw [ht]
  split
  · next hc => omega
  · next hc => omega

theorem jsUpperChar_jsUpperChar {c : Char} (h : isAsciiAlnum c = true) :
    jsUpperChar (jsUpperChar c) = jsUpperChar c := by
  have ht := jsUpperChar_toNat c
  unfold isAsciiAlnum at h
  simp only [Bool.or_eq_true, Bool.and_eq_true, decide_eq_true_eq] at h
  by_cases h97 : 97 ≤ c.toNat ∧ c.toNat ≤ 122
  · rw [if_pos h97] at ht
    apply jsUpperChar_fix
    omega
  · rw [jsUpperChar_fix h97]
    exact jsUpperChar_fix h97

theorem leadsList_self_append (p r : List Char) : leadsList p (p ++ r) = true := by
  induction p with
  | nil => rfl
  | cons a as ih => simp [leadsList, ih]

theorem containsSub_append (pre p suf : List Char) :
    containsSub (pre ++ (p ++ suf)) p = true := by
  induction pre with
  | nil =>
    rw [List.nil_append]
    cases hp : p ++ suf with
    | nil =>
      have : p = [] := by
        cases p with
        | nil => rfl
        | cons a t => simp at hp
      subst this
      rfl
    | cons c t =>
      show (leadsList p (c :: t) || containsSub t p) = true
      rw [← hp, leadsList_self_append, Bool.true_or]
  | cons a t ih =>
    show (leadsList p (a :: (t ++ (p ++ suf))) || containsSub (t ++ (p ++ suf)) p) = true
    rw [ih]
    exact Bool.or_true _

theorem string_toList_append (a b : String) : (a ++ b).toList = a.toList ++ b.toList := by
  show (a ++ b).data = a.data ++ b.data
  exact String.data_append a b

theorem jsIncludes_of_middle (a p b : String) : jsIncludes (a ++ p ++ b) p = true := by
  unfold jsIncludes
  rw [string_toList_append, string_toList_append, List.append_assoc]
  exact containsSub_append a.toList p.toList b.toList

theorem jsIncludes_of_start (p b : String) : jsIncludes (p ++ b) p = true := by
  have := jsIncludes_of_middle "" p b
  simpa using this

theorem jsIncludes_of_end (a p : String) : jsIncludes (a ++ p) p = true := by
  have := jsIncludes_of_middle a p ""
  rwa [String.append_empty] at this

theorem containsSub_nil (s : List Char) : containsSub s [] = true := by
  cases s with
  | nil => rfl
  | cons c t => rfl

theorem leadsList_extend (p s x : List Char) (h : leadsList p s = true) :
    leadsList p (s ++ x) = true := by
  induction p generalizing s with
  | nil => rfl
  | cons a as ih =>
    cases s with
    | nil => exact absurd h (by simp [leadsList])
    | cons b bs =>
      simp only [leadsList, Bool.and_eq_true, decide_eq_true_eq] at h
      simp only [List.cons_append, leadsList, Bool.and_eq_true, decide_eq_true_eq]
      exact ⟨h.1, ih bs h.2⟩

theorem containsSub_append_left (x s p : List Char) (h : containsSub s p = true) :
    containsSub (x ++ s) p = true := by
  induction x with
  | nil => exact h
  | cons c t ih =>
    show (leadsList p (c :: (t ++ s)) || containsSub (t ++ s) p) = true
    rw [ih]
    exact Bool.or_true _

theorem containsSub_append_right (s x p : List Char) (h : containsSub s p = true) :
    containsSub (s ++ x) p = true := by
  induction s with
  | nil =>
    cases p with
    | nil => exact containsSub_nil x
    | cons a as => exact absurd h (by simp [containsSub, leadsList])
  | cons c t ih =>
    simp only [containsSub, Bool.or_eq_true] at h
    rcases h with h | h
    · show (leadsList p ((c :: t) ++ x) || containsSub (t ++ x) p) = true
      rw [leadsList_extend p (c :: t) x h]
      rfl
    · show (leadsList p ((c :: t) ++ x) || containsSub (t ++ x) p) = true
      rw [ih h]
      exact Bool.or_true _

theorem jsIncludes_mono_left (x s p : String) (h : jsIncludes s p = true) :
    jsIncludes (x ++ s) p = true := by
  unfold jsIncludes at h ⊢
  rw [string_toList_append]
  exact containsSub_append_left _ _ _ h

theorem jsIncludes_mono_right (s x p : String) (h : jsIncludes s p = true) :
    jsIncludes (s ++ x) p = true := by
  unfold jsIncludes at h ⊢
  rw [string_toList_append]
  exact containsSub_append_right _ _ _ h

/-! Concrete example environments used by the witnesses. -/

/-- A concrete chain state: one DAO, a holder with a zero balance, an available
supply of 50 tokens, no tenant. -/
def egChain : Chain where
  marketplace := "0xmkt"
  marketplaceOwner := "0xOwner"
  tokenContractOf := fun _ => "0xtok"
  balanceOf := fun _ _ => 0
  allowanceOf := fun _ _ _ => 0
  totalSupplyOf := fun _ => 100
  tokenPriceOf := fun _ => 7
  rentalPriceOf := fun _ => 5
  availableTokensOf := fun _ => 50
  currentTenantOf := fun _ => zeroAddress
  proposalActiveOf := fun _ => false
  proposalPriceOf := fun _ => 9
  voteThresholdOf := fun _ => 51
  percentageDecimalsOf := fun _ => 100
  staticVoteOf := fun _ _ _ => none
  pinJsonUrlOf := fun _ => "https://gateway.pinata.cloud/ipfs/QmHash"
  gasPriceNow := 3
  txCountOf := fun _ => 11
  chainId := 534351
  estimateGasOf := fun _ _ _ _ => 21000

/-- Same chain state but the caller holds 40 of the 100 tokens, a proposal is
active, and the simulated vote call reverts with "Already voted". -/
def egChainVoted : Chain :=
  { egChain with
    balanceOf := fun _ _ => 40
    proposalActiveOf := fun _ => true
    staticVoteOf := fun _ _ _ => some "Already voted" }

/-- Same chain state but the simulated vote call reverts with an unrelated
reason. -/
def egChainProbeFails : Chain :=
  { egChain with
    balanceOf := fun _ _ => 40
    proposalActiveOf := fun _ => true
    staticVoteOf := fun _ _ _ => some "gas estimation failed" }

/-- Same chain state but with a tenant already renting the hardware. -/
def egChainRented : Chain :=
  { egChain with currentTenantOf := fun _ => "0xTenant" }

/-- Same chain state but the caller owns the full supply and is the
marketplace owner (with mixed-case spelling), with no allowance yet. -/
def egChainFullOwner : Chain :=
  { egChain with balanceOf := fun _ _ => 100 }

/-- Full owner with the allowance already granted. -/
def egChainFullOwnerApproved : Chain :=
  { egChain with balanceOf := fun _ _ => 100, allowanceOf := fun _ _ _ => 100 }

/-! Claim theorems. -/

/-- C2: the proposal classifier returns Passing exactly when
`votesFor / decimals ≥ threshold / decimals`; otherwise it returns Failing
exactly when `votesAgainst / decimals > 1 − threshold / decimals`; otherwise it
returns the in-progress status (spelled "In Progress" by the source).  The
three concrete instances of the claim are included. -/
theorem claim_C2_proposal_classifier (votesFor votesAgainst threshold decimals : ℚ)
    (hd : 0 < decimals) :
    (getProposalStatus votesFor votesAgainst threshold decimals = "Passing" ↔
      threshold / decimals ≤ votesFor / decimals) ∧
    (getProposalStatus votesFor votesAgainst threshold decimals = "Failing" ↔
      ¬threshold / decimals ≤ votesFor / decimals ∧
        1 - threshold / decimals < votesAgainst / decimals) ∧
    (getProposalStatus votesFor votesAgainst threshold decimals = "In Progress" ↔
      ¬threshold / decimals ≤ votesFor / decimals ∧
        ¬1 - threshold / decimals < votesAgainst / decimals) ∧
    getProposalStatus 60 10 51 100 = "Passing" ∧
    getProposalStatus 20 60 51 100 = "Failing" ∧
    getProposalStatus 20 10 51 100 = "In Progress" := by
  have hA : threshold * 100 / decimals ≤ votesFor * 100 / decimals ↔
      threshold / decimals ≤ votesFor / decimals := by
    rw [mul_div_right_comm, mul_div_right_comm]
    constructor <;> intro h <;> linarith
  have hB : 100 - threshold * 100 / decimals < votesAgainst * 100 / decimals ↔
      1 - threshold / decimals < votesAgainst / decimals := by
    rw [mul_div_right_comm, mul_div_right_comm]
    constructor <;> intro h <;> linarith
  have key : getProposalStatus votesFor votesAgainst threshold decimals =
      if threshold / decimals ≤ votesFor / decimals then "Passing"
      else if 1 - threshold / decimals < votesAgainst / decimals then "Failing"
      else "In Progress" := by
    simp only [getProposalStatus, ge_iff_le, gt_iff_lt]
    rw [if_congr hA rfl (if_congr hB rfl rfl)]
  refine ⟨?_, ?_, ?_, by norm_num [getProposalStatus], by norm_num [getProposalStatus],
    by norm_num [getProposalStatus]⟩ <;>
    rw [key] <;> split_ifs with h1 h2 <;> simp +decide [h1, *]

/-- Witness for C2 at the claim's own concrete inputs. -/
theorem claim_C2_proposal_classifier_witness :
    (getProposalStatus 60 10 51 100 = "Passing" ↔ (51 : ℚ) / 100 ≤ 60 / 100) ∧
    getProposalStatus 60 10 51 100 = "Passing" ∧
    getProposalStatus 20 60 51 100 = "Failing" ∧
    getProposalStatus 20 10 51 100 = "In Progress" :=
  let h := claim_C2_proposal_classifier 60 10 51 100 (by decide)
  ⟨h.1, h.2.2.2.1, h.2.2.2.2.1, h.2.2.2.2.2⟩

/-- C8: symbol derivation is deterministic (a pure function of the hardware
name) and agrees with the spec's strip → upper-case → truncate-to-5 → suffix
description; names with fewer than 5 alphanumeric characters are not padded and
still receive the suffix; and re-deriving from an already-derived prefix yields
the same symbol. -/
theorem claim_C8_symbol_derivation (name : String) :
    (∀ suffix, deriveSymbol name suffix = specSymbolDerivation name suffix) ∧
    (∀ suffix, (name.toList.filter isAsciiAlnum).length < 5 →
      deriveSymbol name suffix =
        String.mk ((name.toList.filter isAsciiAlnum).map jsUpperChar) ++ suffix) ∧
    (∀ suffix,
      deriveSymbol
        (String.mk (((name.toList.filter isAsciiAlnum).take 5).map jsUpperChar)) suffix =
        deriveSymbol name suffix) := by
  refine ⟨fun suffix => ?_, fun suffix h => ?_, fun suffix => ?_⟩
  · unfold deriveSymbol specSymbolDerivation
    rw [List.map_take]
  · unfold deriveSymbol
    rw [List.take_of_length_le (Nat.le_of_lt h)]
  · have hmem : ∀ c ∈ ((name.toList.filter isAsciiAlnum).take 5).map jsUpperChar,
        isAsciiAlnum c = true := by
      intro c hc
      obtain ⟨c', hc', rfl⟩ := List.mem_map.mp hc
      exact isAsciiAlnum_jsUpperChar
        (List.mem_filter.mp (List.mem_of_mem_take hc')).2
    show String.mk
        ((((((name.toList.filter isAsciiAlnum).take 5).map jsUpperChar).filter
          isAsciiAlnum).take 5).map jsUpperChar) ++ suffix =
      deriveSymbol name suffix
    rw [List.filter_eq_self.mpr hmem,
      List.take_of_length_le
        (by rw [List.length_map]; exact List.length_take_le 5 _),
      List.map_map]
    unfold deriveSymbol
    congr 2
    exact List.map_congr_left fun c hc => by
      simp only [Function.comp_apply]
      exact jsUpperChar_jsUpperChar
        (List.mem_filter.mp (List.mem_of_mem_take hc)).2

/-- Witness for C8: the claim's example name, a short name, and the
re-derivation input evaluated concretely. -/
theorem claim_C8_symbol_derivation_witness :
    deriveSymbol "NVIDIA A100!!" "NFT" = "NVIDINFT" ∧
    deriveSymbol "NVIDIA A100!!" "NFT" = specSymbolDerivation "NVIDIA A100!!" "NFT" ∧
    deriveSymbol "ab!" "TKN" = "ABTKN" ∧
    ("ab!".toList.filter isAsciiAlnum).length < 5 ∧
    deriveSymbol "ab!" "TKN" =
      String.mk (("ab!".toList.filter isAsciiAlnum).map jsUpperChar) ++ "TKN" ∧
    String.mk ((("NVIDIA A100!!".toList.filter isAsciiAlnum).take 5).map jsUpperChar) =
      "NVIDI" ∧
    deriveSymbol
      (String.mk ((("NVIDIA A100!!".toList.filter isAsciiAlnum).take 5).map jsUpperChar))
      "NFT" = deriveSymbol "NVIDIA A100!!" "NFT" :=
  ⟨by decide, (claim_C8_symbol_derivation "NVIDIA A100!!").1 "NFT", by decide, by decide,
   (claim_C8_symbol_derivation "ab!").2.1 "TKN" (by decide), by decide,
   (claim_C8_symbol_derivation "NVIDIA A100!!").2.2 "NFT"⟩

/-- C10: `createListing` does not reject a missing/zero `totalTokens` — the
encoded call then carries the default of 1000 total tokens — and the provided
price fields are encoded as the caller's values converted to wei
(multiplied by `10 ^ 18`). -/
theorem claim_C10_createListing_defaults (env : Chain) (req : CreateListingReq)
    (hn : req.hardwareName ≠ "") (hu : req.userAddress ≠ "") :
    ∃ r, createListing env req = .ok r ∧
      r.tx.callData =
        ⟨"createListing",
          [.s (req.hardwareName ++ " NFT"), .s (deriveSymbol req.hardwareName "NFT"),
           .s (req.hardwareName ++ " Token"), .s (deriveSymbol req.hardwareName "TKN"),
           .s (env.pinJsonUrlOf req.hardwareName),
           .n (if req.totalTokens = 0 then 1000 else req.totalTokens),
           .q (req.tokenPrice * 10 ^ 18), .q (req.rentalPrice * 10 ^ 18)]⟩ ∧
      (req.totalTokens = 0 → r.tx.callData.args[5]? = some (.n 1000)) := by
  unfold createListing
  rw [if_neg (by push_neg; exact ⟨hn, hu⟩)]
  refine ⟨_, rfl, rfl, fun h => ?_⟩
  simp [h]

/-- Witness for C10 at a concrete environment and request with
`totalTokens = 0`. -/
theorem claim_C10_createListing_defaults_witness :
    ∃ r, createListing egChain
        { hardwareName := "NVIDIA A100!!", totalTokens := 0, tokenPrice := 2,
          rentalPrice := 3, imageUrl := "img", cpu := "c", memory := "m",
          location := "l", userAddress := "0xuser", instanceId := "i1" } = .ok r ∧
      r.tx.callData =
        ⟨"createListing",
          [.s "NVIDIA A100!! NFT", .s (deriveSymbol "NVIDIA A100!!" "NFT"),
           .s "NVIDIA A100!! Token", .s (deriveSymbol "NVIDIA A100!!" "TKN"),
           .s (egChain.pinJsonUrlOf "NVIDIA A100!!"),
           .n (if (0 : Nat) = 0 then 1000 else 0),
           .q ((2 : ℚ) * 10 ^ 18), .q ((3 : ℚ) * 10 ^ 18)]⟩ ∧
      ((0 : Nat) = 0 → r.tx.callData.args[5]? = some (.n 1000)) :=
  claim_C10_createListing_defaults egChain _ (by decide) (by decide)

/-- C3: a `buyTokens` request whose amount exceeds the available-for-sale
balance fails with the supply `BadRequest` (the catch block re-throws this
self-thrown client error unchanged) and its message contains the requested and
the available quantities verbatim; otherwise the returned transaction carries
`value = tokenPrice * amount`, an exact integer product. -/
theorem claim_C3_buyTokens_supply (env : Chain) (req : BuyTokensReq)
    (hn : req.numberOfTokens ≠ 0) (hu : req.userAddress ≠ "") (hd : req.daoAddress ≠ "") :
    (env.availableTokensOf req.daoAddress < req.numberOfTokens →
      ∃ msg, buyTokens env req = .error (.badRequest msg) ∧
        jsIncludes msg (Nat.repr req.numberOfTokens) = true ∧
        jsIncludes msg (Nat.repr (env.availableTokensOf req.daoAddress)) = true) ∧
    (¬env.availableTokensOf req.daoAddress < req.numberOfTokens →
      ∃ r, buyTokens env req = .ok r ∧
        r.tx.value = some (env.tokenPriceOf req.daoAddress * req.numberOfTokens)) := by
  unfold buyTokens
  rw [if_neg (by push_neg; exact ⟨hn, hu, hd⟩), if_neg (by omega)]
  unfold buyTokensBody
  constructor
  · intro h
    rw [if_pos h]
    set A := Nat.repr req.numberOfTokens with hA
    set B := Nat.repr (env.availableTokensOf req.daoAddress) with hB
    set msg := "Not enough tokens available for sale. Requested: " ++ A ++
      ", Available: " ++ B with hmsg
    have hstart : jsIncludes msg "Not enough tokens available" = true := by
      rw [hmsg,
        show ("Not enough tokens available for sale. Requested: " : String) =
          "Not enough tokens available" ++ " for sale. Requested: " from by decide,
        String.append_assoc, String.append_assoc, String.append_assoc]
      exact jsIncludes_of_start _ _
    refine ⟨msg, ?_, ?_, ?_⟩
    · simp only [Except.mapError, buyCatch, HErr.message, hstart, if_pos]
    · rw [hmsg, String.append_assoc]
      exact jsIncludes_of_middle _ _ _
    · rw [hmsg]
      exact jsIncludes_of_end _ _
  · intro h
    rw [if_neg h]
    exact ⟨_, rfl, rfl⟩

/-- Witness for C3: both branches at concrete requests against `egChain`
(50 tokens available, price 7 wei). -/
theorem claim_C3_buyTokens_supply_witness :
    (egChain.availableTokensOf "0xdao" < 60 →
      ∃ msg, buyTokens egChain
          { numberOfTokens := 60, userAddress := "0xuser", daoAddress := "0xdao" } =
          .error (.badRequest msg) ∧
        jsIncludes msg (Nat.repr 60) = true ∧
        jsIncludes msg (Nat.repr (egChain.availableTokensOf "0xdao")) = true) ∧
    (¬egChain.availableTokensOf "0xdao" < 60 →
      ∃ r, buyTokens egChain
          { numberOfTokens := 60, userAddress := "0xuser", daoAddress := "0xdao" } = .ok r ∧
        r.tx.value = some (egChain.tokenPriceOf "0xdao" * 60)) :=
  claim_C3_buyTokens_supply egChain
    { numberOfTokens := 60, userAddress := "0xuser", daoAddress := "0xdao" }
    (by decide) (by decide) (by decide)

/-- C6 (behavior at the failing input and the happy path): when a tenant is
already set, `becomeTenant` throws the tenant `BadRequest` inside its try
block, but the catch block matches the message neither against
"Property already rented" nor "Incorrect rent amount", so the caller receives
an `InternalServerError` (5xx) rather than any client error; when no tenant is
set, the returned transaction's value equals the DAO's rental price. -/
theorem claim_C6_becomeTenant_behavior (env : Chain) (req : TenantReq)
    (hu : req.userAddress ≠ "") (hd : req.daoAddress ≠ "") :
    (env.currentTenantOf req.daoAddress ≠ zeroAddress →
      becomeTenant env req = .error (.internalServerError
        ("Failed to prepare tenant transaction: " ++
          "This property already has a tenant. It\x27s not available for rent.")) ∧
      ∀ m, becomeTenant env req ≠ .error (.badRequest m)) ∧
    (env.currentTenantOf req.daoAddress = zeroAddress →
      ∃ r, becomeTenant env req = .ok r ∧
        r.tx.value = some (env.rentalPriceOf req.daoAddress)) := by
  unfold becomeTenant becomeTenantBody
  rw [if_neg (by push_neg; exact ⟨hu, hd⟩)]
  constructor
  · intro h
    rw [if_pos h]
    have heq : Except.mapError becomeTenantCatch
        (.error (.badRequest
          "This property already has a tenant. It\x27s not available for rent.") :
          Except HErr TenantRes) =
        .error (.internalServerError
          ("Failed to prepare tenant transaction: " ++
            "This property already has a tenant. It\x27s not available for rent.")) := by
      simp only [Except.mapError, becomeTenantCatch, HErr.message]
      rw [if_neg (by decide), if_neg (by decide)]
    refine ⟨heq, fun m hcontra => ?_⟩
    rw [heq] at hcontra
    simp at hcontra
  · intro h
    rw [if_neg (by simp [h])]
    exact ⟨_, rfl, rfl⟩

/-- Witness for C6 at `egChainRented` (tenant set) and `egChain` (no tenant). -/
theorem claim_C6_becomeTenant_behavior_witness :
    ((egChainRented.currentTenantOf "0xdao" ≠ zeroAddress →
      becomeTenant egChainRented { userAddress := "0xuser", daoAddress := "0xdao" } =
        .error (.internalServerError
          ("Failed to prepare tenant transaction: " ++
            "This property already has a tenant. It\x27s not available for rent.")) ∧
      ∀ m, becomeTenant egChainRented { userAddress := "0xuser", daoAddress := "0xdao" } ≠
        .error (.badRequest m)) ∧
     (egChainRented.currentTenantOf "0xdao" = zeroAddress →
      ∃ r, becomeTenant egChainRented { userAddress := "0xuser", daoAddress := "0xdao" } =
          .ok r ∧ r.tx.value = some (egChainRented.rentalPriceOf "0xdao"))) ∧
    ((egChain.currentTenantOf "0xdao" ≠ zeroAddress →
      becomeTenant egChain { userAddress := "0xuser", daoAddress := "0xdao" } =
        .error (.internalServerError
          ("Failed to prepare tenant transaction: " ++
            "This property already has a tenant. It\x27s not available for rent.")) ∧
      ∀ m, becomeTenant egChain { userAddress := "0xuser", daoAddress := "0xdao" } ≠
        .error (.badRequest m)) ∧
     (egChain.currentTenantOf "0xdao" = zeroAddress →
      ∃ r, becomeTenant egChain { userAddress := "0xuser", daoAddress := "0xdao" } = .ok r ∧
        r.tx.value = some (egChain.rentalPriceOf "0xdao"))) :=
  ⟨claim_C6_becomeTenant_behavior egChainRented _ (by decide) (by decide),
   claim_C6_becomeTenant_behavior egChain _ (by decide) (by decide)⟩

/-- C9 (behavior at the failing input and the two allowed outcomes): when the
caller's balance differs from the total supply, the ownership `BadRequest`
thrown inside the try block is re-wrapped by the catch-all as an
`InternalServerError` (5xx, not a client error); with full ownership and a
sufficient allowance the operation short-circuits with `needsApproval = false`
and no transaction; otherwise it returns an `approve(daoAddress, totalSupply)`
transaction addressed to the token contract. -/
theorem claim_C9_unlistApproval_behavior (env : Chain) (req : TenantReq)
    (hu : req.userAddress ≠ "") (hd : req.daoAddress ≠ "") :
    (env.balanceOf (env.tokenContractOf req.daoAddress) req.userAddress ≠
        env.totalSupplyOf (env.tokenContractOf req.daoAddress) →
      getUnlistApprovalTx env req = .error (.internalServerError
        ("Failed to prepare approval transaction: " ++
          ("You must own all tokens to unlock the NFT. You own " ++
            Nat.repr (env.balanceOf (env.tokenContractOf req.daoAddress) req.userAddress) ++
            " of " ++
            Nat.repr (env.totalSupplyOf (env.tokenContractOf req.daoAddress)) ++
            " tokens."))) ∧
      ∀ m, getUnlistApprovalTx env req ≠ .error (.badRequest m)) ∧
    (env.balanceOf (env.tokenContractOf req.daoAddress) req.userAddress =
        env.totalSupplyOf (env.tokenContractOf req.daoAddress) →
      env.allowanceOf (env.tokenContractOf req.daoAddress) req.userAddress req.daoAddress ≥
        env.totalSupplyOf (env.tokenContractOf req.daoAddress) →
      getUnlistApprovalTx env req = .ok
        { needsApproval := false, tx := none, totalSupply := none,
          message := "Tokens are already approved. Proceed to unlocking the NFT." }) ∧
    (env.balanceOf (env.tokenContractOf req.daoAddress) req.userAddress =
        env.totalSupplyOf (env.tokenContractOf req.daoAddress) →
      ¬env.allowanceOf (env.tokenContractOf req.daoAddress) req.userAddress req.daoAddress ≥
        env.totalSupplyOf (env.tokenContractOf req.daoAddress) →
      ∃ r, getUnlistApprovalTx env req = .ok r ∧ r.needsApproval = true ∧
        ∃ t, r.tx = some t ∧
          t.toAddr = env.tokenContractOf req.daoAddress ∧
          t.callData = ⟨"approve",
            [.s req.daoAddress,
             .n (env.totalSupplyOf (env.tokenContractOf req.daoAddress))]⟩) := by
  unfold getUnlistApprovalTx getUnlistApprovalTxBody
  rw [if_neg (by push_neg; exact ⟨hu, hd⟩)]
  refine ⟨fun h => ?_, fun h1 h2 => ?_, fun h1 h2 => ?_⟩
  · rw [if_pos h]
    refine ⟨rfl, fun m hcontra => ?_⟩
    simp [Except.mapError, unlistApprovalCatch] at hcontra
  · rw [if_neg (by simp [h1]), if_pos h2]
    rfl
  · rw [if_neg (by simp [h1]), if_neg h2]
    exact ⟨_, rfl, rfl, _, rfl, rfl, rfl⟩

/-- Witness for C9: partial ownership (`egChain`, balance 0 of 100), full
ownership without allowance (`egChainFullOwner`), and full ownership with
allowance (`egChainFullOwnerApproved`). -/
theorem claim_C9_unlistApproval_behavior_witness :
    (egChain.balanceOf (egChain.tokenContractOf "0xdao") "0xuser" ≠
        egChain.totalSupplyOf (egChain.tokenContractOf "0xdao") →
      getUnlistApprovalTx egChain { userAddress := "0xuser", daoAddress := "0xdao" } =
        .error (.internalServerError
          ("Failed to prepare approval transaction: " ++
            ("You must own all tokens to unlock the NFT. You own " ++
              Nat.repr (egChain.balanceOf (egChain.tokenContractOf "0xdao") "0xuser") ++
              " of " ++ Nat.repr (egChain.totalSupplyOf (egChain.tokenContractOf "0xdao")) ++
              " tokens."))) ∧
      ∀ m, getUnlistApprovalTx egChain { userAddress := "0xuser", daoAddress := "0xdao" } ≠
        .error (.badRequest m)) ∧
    (egChainFullOwnerApproved.balanceOf
        (egChainFullOwnerApproved.tokenContractOf "0xdao") "0xuser" =
        egChainFullOwnerApproved.totalSupplyOf
          (egChainFullOwnerApproved.tokenContractOf "0xdao") →
      egChainFullOwnerApproved.allowanceOf
          (egChainFullOwnerApproved.tokenContractOf "0xdao") "0xuser" "0xdao" ≥
        egChainFullOwnerApproved.totalSupplyOf
          (egChainFullOwnerApproved.tokenContractOf "0xdao") →
      getUnlistApprovalTx egChainFullOwnerApproved
          { userAddress := "0xuser", daoAddress := "0xdao" } = .ok
        { needsApproval := false, tx := none, totalSupply := none,
          message := "Tokens are already approved. Proceed to unlocking the NFT." }) ∧
    (egChainFullOwner.balanceOf (egChainFullOwner.tokenContractOf "0xdao") "0xuser" =
        egChainFullOwner.totalSupplyOf (egChainFullOwner.tokenContractOf "0xdao") →
      ¬egChainFullOwner.allowanceOf
          (egChainFullOwner.tokenContractOf "0xdao") "0xuser" "0xdao" ≥
        egChainFullOwner.totalSupplyOf (egChainFullOwner.tokenContractOf "0xdao") →
      ∃ r, getUnlistApprovalTx egChainFullOwner
          { userAddress := "0xuser", daoAddress := "0xdao" } = .ok r ∧
        r.needsApproval = true ∧
        ∃ t, r.tx = some t ∧
          t.toAddr = egChainFullOwner.tokenContractOf "0xdao" ∧
          t.callData = ⟨"approve",
            [.s "0xdao",
             .n (egChainFullOwner.totalSupplyOf (egChainFullOwner.tokenContractOf "0xdao"))]⟩) :=
  ⟨(claim_C9_unlistApproval_behavior egChain _ (by decide) (by decide)).1,
   (claim_C9_unlistApproval_behavior egChainFullOwnerApproved _ (by decide) (by decide)).2.1,
   (claim_C9_unlistApproval_behavior egChainFullOwner _ (by decide) (by decide)).2.2⟩

/-- C1 (behavior at the failing input): on a fully populated
`proposeNewRentalPrice` request with a positive price and a zero token
balance, the holder `BadRequest` thrown inside the try block is re-wrapped by
the catch block (the thrown error has no `CALL_EXCEPTION` code) into an
`InternalServerError` — an infrastructure-class error, not a client error —
while the trace stops after the two balance-precondition reads, so no gas
estimate is attempted. -/
theorem claim_C1_propose_zero_balance (env : Chain) (req : ProposeReq) (p : ℚ)
    (hd : req.daoAddress ≠ "") (hu : req.userAddress ≠ "")
    (hp : req.newRentalPrice = some p) (hpos : 0 < p)
    (hbal : env.balanceOf (env.tokenContractOf req.daoAddress) req.userAddress = 0) :
    (proposeNewRentalPrice env req).1 = .error (.internalServerError
      ("Failed to create proposal transaction: " ++
        "You must be a token holder to propose a new rental price")) ∧
    (∀ m, (proposeNewRentalPrice env req).1 ≠ .error (.badRequest m)) ∧
    (proposeNewRentalPrice env req).2 =
      [.contractRead req.daoAddress "TOKEN_CONTRACT",
       .contractRead (env.tokenContractOf req.daoAddress) "balanceOf"] ∧
    (∀ op ∈ (proposeNewRentalPrice env req).2, op.isEstimateGas = false) := by
  have hfun : proposeNewRentalPrice env req =
      ((proposeBody env req.daoAddress req.userAddress p).1.mapError proposeCatch,
        (proposeBody env req.daoAddress req.userAddress p).2) := by
    unfold proposeNewRentalPrice
    rw [if_neg (by push_neg; exact ⟨hd, hu, by rw [hp]; exact Option.some_ne_none p⟩),
      hp]
    rw [if_neg (by simpa using not_le.mpr hpos)]
    rfl
  have hbody : proposeBody env req.daoAddress req.userAddress p =
      (.error (.badRequest "You must be a token holder to propose a new rental price"),
        [.contractRead req.daoAddress "TOKEN_CONTRACT",
         .contractRead (env.tokenContractOf req.daoAddress) "balanceOf"]) := by
    unfold proposeBody
    rw [if_pos hbal]
    rfl
  rw [hfun, hbody]
  refine ⟨rfl, fun m hcontra => by simp [Except.mapError, proposeCatch] at hcontra, rfl, ?_⟩
  intro op hop
  simp only [List.mem_cons, List.not_mem_nil, or_false] at hop
  rcases hop with rfl | rfl <;> rfl

/-- Witness for C1 at `egChain`, whose holder balance is 0. -/
theorem claim_C1_propose_zero_balance_witness :
    (proposeNewRentalPrice egChain
        { daoAddress := "0xdao", userAddress := "0xuser", newRentalPrice := some 2 }).1 =
      .error (.internalServerError
        ("Failed to create proposal transaction: " ++
          "You must be a token holder to propose a new rental price")) ∧
    (∀ m, (proposeNewRentalPrice egChain
        { daoAddress := "0xdao", userAddress := "0xuser", newRentalPrice := some 2 }).1 ≠
      .error (.badRequest m)) ∧
    (proposeNewRentalPrice egChain
        { daoAddress := "0xdao", userAddress := "0xuser", newRentalPrice := some 2 }).2 =
      [.contractRead "0xdao" "TOKEN_CONTRACT", .contractRead "0xtok" "balanceOf"] ∧
    (∀ op ∈ (proposeNewRentalPrice egChain
        { daoAddress := "0xdao", userAddress := "0xuser", newRentalPrice := some 2 }).2,
      op.isEstimateGas = false) :=
  claim_C1_propose_zero_balance egChain
    { daoAddress := "0xdao", userAddress := "0xuser", newRentalPrice := some 2 } 2
    (by decide) (by decide) rfl (by decide) rfl

/-- C5 (behavior of the duplicate-vote probe): for a holder with a positive
balance while a proposal is active, the non-mutating `callStatic.vote` probe is
performed before any gas estimation; when the simulated call reverts with a
reason containing "Already voted" the already-voted `BadRequest` thrown inside
the try block is re-wrapped by the catch-all into an `InternalServerError`
(not a client error); any other simulated-call failure is ignored and assembly
proceeds to a successful result. -/
theorem claim_C5_vote_probe (env : Chain) (req : VoteReq) (b : Bool)
    (hd : req.daoAddress ≠ "") (hu : req.userAddress ≠ "")
    (hb : req.inFavor = some b)
    (hbal : env.balanceOf (env.tokenContractOf req.daoAddress) req.userAddress ≠ 0)
    (hact : env.proposalActiveOf req.daoAddress = true) :
    (∀ reason, env.staticVoteOf req.daoAddress req.userAddress b = some reason →
      jsIncludes reason "Already voted" = true →
      (voteOnProposal env req).1 = .error (.internalServerError
        ("Failed to create vote transaction: " ++
          "You have already voted on this proposal")) ∧
      ∀ m, (voteOnProposal env req).1 ≠ .error (.badRequest m)) ∧
    (∀ reason, env.staticVoteOf req.daoAddress req.userAddress b = some reason →
      jsIncludes reason "Already voted" = false →
      ∃ r, (voteOnProposal env req).1 = .ok r) ∧
    (env.staticVoteOf req.daoAddress req.userAddress b = none →
      ∃ r, (voteOnProposal env req).1 = .ok r) ∧
    (∃ pre post, (voteOnProposal env req).2 =
        pre ++ .staticCall req.daoAddress "vote" :: post ∧
      ∀ op ∈ pre, op.isEstimateGas = false) := by
  have hfun : voteOnProposal env req =
      ((voteBody env req.daoAddress req.userAddress b).1.mapError voteCatch,
        (voteBody env req.daoAddress req.userAddress b).2) := by
    unfold voteOnProposal
    rw [if_neg (by push_neg; exact ⟨hd, hu, by rw [hb]; exact Option.some_ne_none b⟩), hb]
    rfl
  have hpre : ∀ op ∈ ([.contractRead req.daoAddress "TOKEN_CONTRACT",
      .contractRead (env.tokenContractOf req.daoAddress) "balanceOf",
      .contractRead req.daoAddress "currentProposal"] : List LOp),
      op.isEstimateGas = false := by
    intro op hop
    simp only [List.mem_cons, List.not_mem_nil, or_false] at hop
    rcases hop with rfl | rfl | rfl <;> rfl
  rw [hfun]
  unfold voteBody
  rw [if_neg hbal, if_neg (by simp [hact])]
  refine ⟨fun reason hsv hinc => ?_, fun reason hsv hinc => ?_, fun hsv => ?_, ?_⟩
  · rw [hsv]
    dsimp only
    rw [if_pos hinc]
    exact ⟨rfl, fun m hcontra => by simp [Except.mapError, voteCatch] at hcontra⟩
  · rw [hsv]
    dsimp only
    rw [if_neg (by simp [hinc])]
    exact ⟨_, rfl⟩
  · rw [hsv]
    exact ⟨_, rfl⟩
  · cases hsv : env.staticVoteOf req.daoAddress req.userAddress b with
    | none =>
      exact ⟨[.contractRead req.daoAddress "TOKEN_CONTRACT",
        .contractRead (env.tokenContractOf req.daoAddress) "balanceOf",
        .contractRead req.daoAddress "currentProposal"],
        [.contractRead (env.tokenContractOf req.daoAddress) "totalSupply",
         .contractRead req.daoAddress "PERCENTAGE_DECIMALS",
         .estimateGas req.userAddress req.daoAddress, .getGasPrice,
         .getTransactionCount req.userAddress, .getNetwork], rfl, hpre⟩
    | some reason =>
      dsimp only
      by_cases hinc : jsIncludes reason "Already voted" = true
      · rw [if_pos hinc]
        exact ⟨[.contractRead req.daoAddress "TOKEN_CONTRACT",
          .contractRead (env.tokenContractOf req.daoAddress) "balanceOf",
          .contractRead req.daoAddress "currentProposal"], [], rfl, hpre⟩
      · rw [if_neg hinc]
        exact ⟨[.contractRead req.daoAddress "TOKEN_CONTRACT",
          .contractRead (env.tokenContractOf req.daoAddress) "balanceOf",
          .contractRead req.daoAddress "currentProposal"],
          [.contractRead (env.tokenContractOf req.daoAddress) "totalSupply",
           .contractRead req.daoAddress "PERCENTAGE_DECIMALS",
           .estimateGas req.userAddress req.daoAddress, .getGasPrice,
           .getTransactionCount req.userAddress, .getNetwork], rfl, hpre⟩

/-- Witness for C5: the already-voted revert (`egChainVoted`), an unrelated
revert (`egChainProbeFails`), and a successful probe
(`egChain` with a positive balance via `egChainProbeOk`). -/
theorem claim_C5_vote_probe_witness :
    ((∀ reason, egChainVoted.staticVoteOf "0xdao" "0xuser" true = some reason →
      jsIncludes reason "Already voted" = true →
      (voteOnProposal egChainVoted
        { daoAddress := "0xdao", userAddress := "0xuser", inFavor := some true }).1 =
        .error (.internalServerError
          ("Failed to create vote transaction: " ++
            "You have already voted on this proposal")) ∧
      ∀ m, (voteOnProposal egChainVoted
        { daoAddress := "0xdao", userAddress := "0xuser", inFavor := some true }).1 ≠
        .error (.badRequest m)) ∧
     (∀ reason, egChainVoted.staticVoteOf "0xdao" "0xuser" true = some reason →
      jsIncludes reason "Already voted" = false →
      ∃ r, (voteOnProposal egChainVoted
        { daoAddress := "0xdao", userAddress := "0xuser", inFavor := some true }).1 = .ok r) ∧
     (egChainVoted.staticVoteOf "0xdao" "0xuser" true = none →
      ∃ r, (voteOnProposal egChainVoted
        { daoAddress := "0xdao", userAddress := "0xuser", inFavor := some true }).1 = .ok r) ∧
     (∃ pre post, (voteOnProposal egChainVoted
        { daoAddress := "0xdao", userAddress := "0xuser", inFavor := some true }).2 =
        pre ++ LOp.staticCall "0xdao" "vote" :: post ∧
      ∀ op ∈ pre, op.isEstimateGas = false)) ∧
    (∀ reason, egChainProbeFails.staticVoteOf "0xdao" "0xuser" true = some reason →
      jsIncludes reason "Already voted" = false →
      ∃ r, (voteOnProposal egChainProbeFails
        { daoAddress := "0xdao", userAddress := "0xuser", inFavor := some true }).1 = .ok r) :=
  ⟨claim_C5_vote_probe egChainVoted
      { daoAddress := "0xdao", userAddress := "0xuser", inFavor := some true } true
      (by decide) (by decide) rfl (by decide) rfl,
   (claim_C5_vote_probe egChainProbeFails
      { daoAddress := "0xdao", userAddress := "0xuser", inFavor := some true } true
      (by decide) (by decide) rfl (by decide) rfl).2.1⟩

/-- C4: whenever `completeUnlist` succeeds it returns exactly two transactions
in order — `unlockNFT()` to the DAO, then `removeListing(daoAddress)` to the
Marketplace — with nonces `n` and `n + 1` where `n` is the sender's current
transaction count, and with the same gas price and chain id on both; it fails
with the not-authorized error unless the caller is the marketplace owner, and
with the insufficient-approval error unless the caller's allowance to the DAO
covers the total supply (the spec labels these `NotAuthorized` and
`ApprovalInsufficient`; the code identifies them by their reason messages). -/
theorem claim_C4_completeUnlist (env : Chain) (req : TenantReq)
    (hu : req.userAddress ≠ "") (hd : req.daoAddress ≠ "") :
    (∀ r, completeUnlist env req = .ok r →
      ∃ t1 t2, r.transactions = [t1, t2] ∧
        t1.tx.toAddr = req.daoAddress ∧ t1.tx.callData = ⟨"unlockNFT", []⟩ ∧
        t2.tx.toAddr = env.marketplace ∧
        t2.tx.callData = ⟨"removeListing", [.s req.daoAddress]⟩ ∧
        t1.tx.nonce = env.txCountOf req.userAddress ∧
        t2.tx.nonce = env.txCountOf req.userAddress + 1 ∧
        t1.tx.gasPrice = t2.tx.gasPrice ∧ t1.tx.chainId = t2.tx.chainId) ∧
    (jsToLower env.marketplaceOwner ≠ jsToLower req.userAddress →
      ∃ e, completeUnlist env req = .error e ∧
        jsIncludes e.message "Only the marketplace owner can remove the listing" = true) ∧
    (jsToLower env.marketplaceOwner = jsToLower req.userAddress →
      env.allowanceOf (env.tokenContractOf req.daoAddress) req.userAddress req.daoAddress <
        env.totalSupplyOf (env.tokenContractOf req.daoAddress) →
      ∃ e, completeUnlist env req = .error e ∧
        jsIncludes e.message "You must approve the DAO to transfer all tokens first" = true) := by
  unfold completeUnlist completeUnlistBody
  rw [if_neg (by push_neg; exact ⟨hu, hd⟩)]
  refine ⟨fun r hok => ?_, fun howner => ?_, fun howner hallow => ?_⟩
  · by_cases h1 : jsToLower env.marketplaceOwner ≠ jsToLower req.userAddress
    · rw [if_pos h1] at hok
      simp [Except.mapError] at hok
    · rw [if_neg h1] at hok
      by_cases h2 : env.allowanceOf (env.tokenContractOf req.daoAddress)
          req.userAddress req.daoAddress <
          env.totalSupplyOf (env.tokenContractOf req.daoAddress)
      · rw [if_pos h2] at hok
        simp [Except.mapError] at hok
      · rw [if_neg h2] at hok
        simp only [Except.mapError, Except.ok.injEq] at hok
        subst hok
        exact ⟨_, _, rfl, rfl, rfl, rfl, rfl, rfl, rfl, rfl, rfl⟩
  · rw [if_pos howner]
    refine ⟨_, rfl, ?_⟩
    show jsIncludes ("Failed to prepare unlisting transactions: " ++
      "Only the marketplace owner can remove the listing")
      "Only the marketplace owner can remove the listing" = true
    exact jsIncludes_of_end _ _
  · rw [if_neg (by simpa using howner), if_pos hallow]
    refine ⟨_, rfl, ?_⟩
    show jsIncludes ("Failed to prepare unlisting transactions: " ++
      ("You must approve the DAO to transfer all tokens first. Currently approved: " ++
        Nat.repr (env.allowanceOf (env.tokenContractOf req.daoAddress)
          req.userAddress req.daoAddress) ++ " of " ++
        Nat.repr (env.totalSupplyOf (env.tokenContractOf req.daoAddress)) ++ " needed."))
      "You must approve the DAO to transfer all tokens first" = true
    have h0 : jsIncludes
        "You must approve the DAO to transfer all tokens first. Currently approved: "
        "You must approve the DAO to transfer all tokens first" = true := by decide
    exact jsIncludes_mono_left _ _ _
      (jsIncludes_mono_right _ _ _ (jsIncludes_mono_right _ _ _
        (jsIncludes_mono_right _ _ _ (jsIncludes_mono_right _ _ _ h0))))

/-- Witness for C4: the success branch with the marketplace owner
(`egChainFullOwnerApproved`, caller "0xowner" matching owner "0xOwner" after
lower-casing) and both failure branches. -/
theorem claim_C4_completeUnlist_witness :
    (∃ r, completeUnlist egChainFullOwnerApproved
      { userAddress := "0xowner", daoAddress := "0xdao" } = .ok r) ∧
    ((∀ r, completeUnlist egChainFullOwnerApproved
        { userAddress := "0xowner", daoAddress := "0xdao" } = .ok r →
      ∃ t1 t2, r.transactions = [t1, t2] ∧
        t1.tx.toAddr = "0xdao" ∧ t1.tx.callData = ⟨"unlockNFT", []⟩ ∧
        t2.tx.toAddr = egChainFullOwnerApproved.marketplace ∧
        t2.tx.callData = ⟨"removeListing", [.s "0xdao"]⟩ ∧
        t1.tx.nonce = egChainFullOwnerApproved.txCountOf "0xowner" ∧
        t2.tx.nonce = egChainFullOwnerApproved.txCountOf "0xowner" + 1 ∧
        t1.tx.gasPrice = t2.tx.gasPrice ∧ t1.tx.chainId = t2.tx.chainId) ∧
     (jsToLower egChainFullOwnerApproved.marketplaceOwner ≠ jsToLower "0xowner" →
      ∃ e, completeUnlist egChainFullOwnerApproved
          { userAddress := "0xowner", daoAddress := "0xdao" } = .error e ∧
        jsIncludes e.message "Only the marketplace owner can remove the listing" = true) ∧
     (jsToLower egChainFullOwnerApproved.marketplaceOwner = jsToLower "0xowner" →
      egChainFullOwnerApproved.allowanceOf
          (egChainFullOwnerApproved.tokenContractOf "0xdao") "0xowner" "0xdao" <
        egChainFullOwnerApproved.totalSupplyOf
          (egChainFullOwnerApproved.tokenContractOf "0xdao") →
      ∃ e, completeUnlist egChainFullOwnerApproved
          { userAddress := "0xowner", daoAddress := "0xdao" } = .error e ∧
        jsIncludes e.message "You must approve the DAO to transfer all tokens first" = true)) ∧
    (jsToLower egChain.marketplaceOwner ≠ jsToLower "0xstranger" →
      ∃ e, completeUnlist egChain
          { userAddress := "0xstranger", daoAddress := "0xdao" } = .error e ∧
        jsIncludes e.message "Only the marketplace owner can remove the listing" = true) ∧
    (jsToLower egChainFullOwner.marketplaceOwner = jsToLower "0xowner" →
      egChainFullOwner.allowanceOf
          (egChainFullOwner.tokenContractOf "0xdao") "0xowner" "0xdao" <
        egChainFullOwner.totalSupplyOf (egChainFullOwner.tokenContractOf "0xdao") →
      ∃ e, completeUnlist egChainFullOwner
          { userAddress := "0xowner", daoAddress := "0xdao" } = .error e ∧
        jsIncludes e.message "You must approve the DAO to transfer all tokens first" = true) :=
  ⟨⟨_, rfl⟩,
   claim_C4_completeUnlist egChainFullOwnerApproved
      { userAddress := "0xowner", daoAddress := "0xdao" } (by decide) (by decide),
   (claim_C4_completeUnlist egChain
      { userAddress := "0xstranger", daoAddress := "0xdao" } (by decide) (by decide)).2.1,
   (claim_C4_completeUnlist egChainFullOwner
      { userAddress := "0xowner", daoAddress := "0xdao" } (by decide) (by decide)).2.2⟩

/-! Aggregator helper lemmas for C7. -/

theorem listingLe_iff (a b : ListingEntry) :
    listingLe a b = true ↔ a.daoAddress ≤ b.daoAddress := by
  simp [listingLe]

theorem mergeSort_listing_sorted (l : List ListingEntry) :
    (l.mergeSort listingLe).Pairwise (fun a b => a.daoAddress ≤ b.daoAddress) := by
  have h := List.sorted_mergeSort
    (fun a b c hab hbc => (listingLe_iff a c).mpr
      (le_trans ((listingLe_iff a b).mp hab) ((listingLe_iff b c).mp hbc)))
    (fun a b => by
      rcases le_total a.daoAddress b.daoAddress with h | h
      · rw [(listingLe_iff a b).mpr h]; rfl
      · rw [(listingLe_iff b a).mpr h]; exact Bool.or_true _) l
  exact h.imp fun hab => (listingLe_iff _ _).mp hab

theorem fetchListing_daoAddress {env : ListingEnv} {a : String} {e : ListingEntry}
    (h : fetchListing env a = some e) : e.daoAddress = a := by
  unfold fetchListing at h
  simp only [Option.bind_eq_bind, Option.bind_eq_some] at h
  obtain ⟨_, _, _, _, _, _, _, _, _, h⟩ := h
  obtain ⟨rfl⟩ := Option.some.inj h.2
  rfl

theorem map_key_filterMap (env : ListingEnv) (l : List String) :
    (l.filterMap (fetchListing env)).map (fun e => e.daoAddress) =
      l.filter (fun a => (fetchListing env a).isSome) := by
  induction l with
  | nil => rfl
  | cons a t ih =>
    cases h : fetchListing env a with
    | none => simp [List.filterMap_cons, List.filter_cons, h, ih]
    | some e =>
      simp [List.filterMap_cons, List.filter_cons, h, ih, fetchListing_daoAddress h]

theorem keys_nodup_filterMap (env : ListingEnv) (l : List String) (hnd : l.Nodup) :
    ((l.filterMap (fetchListing env)).map (fun e => e.daoAddress)).Nodup := by
  rw [map_key_filterMap]
  exact (List.filter_sublist l).nodup hnd

theorem perm_sorted_unique {l₁ l₂ : List ListingEntry} (hp : l₁.Perm l₂)
    (hs₁ : l₁.Pairwise (fun a b => a.daoAddress ≤ b.daoAddress))
    (hs₂ : l₂.Pairwise (fun a b => a.daoAddress ≤ b.daoAddress))
    (hk : (l₁.map (fun e => e.daoAddress)).Nodup) : l₁ = l₂ := by
  have hk₂ : (l₂.map (fun e => e.daoAddress)).Nodup := ((hp.map _).nodup_iff).mp hk
  letI : IsAntisymm ListingEntry
      (fun a b => a.daoAddress < b.daoAddress ∨ a = b) := ⟨by
    rintro a b (h1 | rfl) (h2 | h2)
    · exact absurd (lt_trans h1 h2) (lt_irrefl _)
    · exact h2.symm
    · rfl
    · rfl⟩
  have hs₁' : l₁.Sorted (fun a b => a.daoAddress < b.daoAddress ∨ a = b) :=
    (hs₁.and (List.pairwise_map.mp hk)).imp fun h => Or.inl (lt_of_le_of_ne h.1 h.2)
  have hs₂' : l₂.Sorted (fun a b => a.daoAddress < b.daoAddress ∨ a = b) :=
    (hs₂.and (List.pairwise_map.mp hk₂)).imp fun h => Or.inl (lt_of_le_of_ne h.1 h.2)
  exact List.eq_of_perm_of_sorted hp hs₁' hs₂'

/-- C7: when the registry enumeration succeeds, the aggregation itself
succeeds; the result is exactly the resolvable DAOs (a failing DAO removes only
its own entry), sorted by `daoAddress`; and the output is independent of the
order in which the registry enumerated the (distinct) addresses. -/
theorem claim_C7_listing_aggregation (env : ListingEnv) (addrs : List String)
    (henum : env.listings = .ok addrs) :
    ∃ l, getListing env = .ok l ∧
      l.Pairwise (fun a b => a.daoAddress ≤ b.daoAddress) ∧
      l.Perm (addrs.filterMap (fetchListing env)) ∧
      l.length = (addrs.filter (fun a => (fetchListing env a).isSome)).length ∧
      (∀ env2 addrs2, env2.listings = .ok addrs2 → addrs2.Perm addrs →
        env2.nftContractOf = env.nftContractOf → env2.tokenPriceOf = env.tokenPriceOf →
        env2.rentalPriceOf = env.rentalPriceOf → env2.tokenUriOf = env.tokenUriOf →
        env2.fetchJson = env.fetchJson → addrs.Nodup →
        getListing env2 = getListing env) := by
  have hout : getListing env =
      .ok ((addrs.filterMap (fetchListing env)).mergeSort listingLe) := by
    unfold getListing
    rw [henum]
  refine ⟨_, hout, mergeSort_listing_sorted _, List.mergeSort_perm _ _, ?_, ?_⟩
  · rw [(List.mergeSort_perm _ _).length_eq, ← map_key_filterMap env addrs,
      List.length_map]
  · intro env2 addrs2 h2 hperm hfn hfp hfr hfu hfj hnd
    have hfetch : fetchListing env2 = fetchListing env := by
      funext a
      unfold fetchListing
      rw [hfn, hfp, hfr, hfu, hfj]
    have hout2 : getListing env2 =
        .ok ((addrs2.filterMap (fetchListing env)).mergeSort listingLe) := by
      unfold getListing
      rw [h2, hfetch]
    rw [hout, hout2]
    have hp : ((addrs2.filterMap (fetchListing env)).mergeSort listingLe).Perm
        ((addrs.filterMap (fetchListing env)).mergeSort listingLe) :=
      ((List.mergeSort_perm _ _).trans (hperm.filterMap _)).trans
        (List.mergeSort_perm _ _).symm
    have hknd : (((addrs2.filterMap (fetchListing env)).mergeSort listingLe).map
        (fun e => e.daoAddress)).Nodup := by
      refine (((List.mergeSort_perm (addrs2.filterMap (fetchListing env))
        listingLe).map _).nodup_iff).mpr ?_
      exact keys_nodup_filterMap env addrs2 ((hperm.nodup_iff).mpr hnd)
    rw [perm_sorted_unique hp (mergeSort_listing_sorted _) (mergeSort_listing_sorted _) hknd]

/-- Concrete aggregator environment for the C7 witness: three discovered DAO
addresses enumerated out of order, the second of which fails metadata
resolution. -/
def egListingEnv : ListingEnv where
  listings := .ok ["0xbbb", "0xccc", "0xaaa"]
  nftContractOf := fun a =>
    if a = "0xccc" then some "0xnC" else if a = "0xbbb" then some "0xnB" else some "0xnA"
  tokenPriceOf := fun _ => some (10 ^ 18)
  rentalPriceOf := fun _ => some (2 * 10 ^ 18)
  tokenUriOf := fun n => if n = "0xnB" then some "urlB" else
    if n = "0xnA" then some "urlA" else some "urlC"
  fetchJson := fun u =>
    if u = "urlC" then none
    else some { name := "GPU", image := "img", cpu := "cpu", memory := "mem", location := "loc" }

/-- Witness for C7: the 3-DAO scenario evaluates to exactly the 2 resolvable
listings, sorted by address, and the general theorem applies to it. -/
theorem claim_C7_listing_aggregation_witness :
    (∃ l, getListing egListingEnv = .ok l ∧
      l.Pairwise (fun a b => a.daoAddress ≤ b.daoAddress) ∧
      l.Perm (["0xbbb", "0xccc", "0xaaa"].filterMap (fetchListing egListingEnv)) ∧
      l.length = (["0xbbb", "0xccc", "0xaaa"].filter
        (fun a => (fetchListing egListingEnv a).isSome)).length ∧
      (∀ env2 addrs2, env2.listings = .ok addrs2 →
        addrs2.Perm ["0xbbb", "0xccc", "0xaaa"] →
        env2.nftContractOf = egListingEnv.nftContractOf →
        env2.tokenPriceOf = egListingEnv.tokenPriceOf →
        env2.rentalPriceOf = egListingEnv.rentalPriceOf →
        env2.tokenUriOf = egListingEnv.tokenUriOf →
        env2.fetchJson = egListingEnv.fetchJson →
        (["0xbbb", "0xccc", "0xaaa"] : List String).Nodup →
        getListing env2 = getListing egListingEnv)) ∧
    getListing egListingEnv = .ok
      [{ name := "GPU", image := "img", cpu := "cpu", memory := "mem", location := "loc",
         daoAddress := "0xaaa", tokenPrice := formatEther (10 ^ 18),
         rentalPrice := formatEther (2 * 10 ^ 18) },
       { name := "GPU", image := "img", cpu := "cpu", memory := "mem", location := "loc",
         daoAddress := "0xbbb", tokenPrice := formatEther (10 ^ 18),
         rentalPrice := formatEther (2 * 10 ^ 18) }] :=
  ⟨claim_C7_listing_aggregation egListingEnv ["0xbbb", "0xccc", "0xaaa"] rfl, by
    show Except.ok ((["0xbbb", "0xccc", "0xaaa"].filterMap
      (fetchListing egListingEnv)).mergeSort listingLe) = _
    simp +decide [List.mergeSort, List.merge, fetchListing, egListingEnv, listingLe]⟩

end ComputeRWA
